import Mathlib

/-!
Verification development for the content-generator adapter layer of the
gemini-cli fork (Ollama and Anthropic backends).  The JavaScript/TypeScript
sources are shallowly embedded: JSON values carry JavaScript truthiness,
duck-typed `part` objects become structures of optional fields, backend
calls become explicit oracles, and the streaming loops become folds over
chunk lists.
-/

namespace Spec2Proof

/-- A JSON value as manipulated by the JavaScript runtime.  Numbers are
restricted to integers: the reviewed code never constructs or relies on
fractional JSON numbers. -/
inductive Json where
  | null : Json
  | bool (b : Bool) : Json
  | num (n : Int) : Json
  | str (s : String) : Json
  | arr (elems : List Json) : Json
  | obj (fields : List (String × Json)) : Json
  deriving Repr

/-- JavaScript truthiness of a JSON value: `null`, `false`, `0` and the
empty string are falsy; every array and object (including empty ones) is
truthy. -/
def Json.truthy : Json → Bool
  | .null => false
  | .bool b => b
  | .num n => n != 0
  | .str s => s != ""
  | .arr _ => true
  | .obj _ => true

/-- Property access `j.k` on a JSON value: defined only on objects, first
matching key wins, anything else is `undefined` (here `none`). -/
def Json.getField : Json → String → Option Json
  | .obj fields, k => (fields.find? (fun f => f.1 == k)).map (fun f => f.2)
  | _, _ => none

/-- JavaScript `v || d` on an optional JSON value: the value when present
and truthy, otherwise the default. -/
def jsOr (v : Option Json) (d : Json) : Json :=
  match v with
  | some j => if j.truthy then j else d
  | none => d

/-- Truthiness of a possibly-absent JSON value (absent = `undefined` = falsy). -/
def jsOptTruthy (v : Option Json) : Bool :=
  match v with
  | some j => j.truthy
  | none => false

/-- Truthiness of a possibly-absent string (absent or empty = falsy). -/
def strOptTruthy (v : Option String) : Bool :=
  match v with
  | some s => s != ""
  | none => false

/-- Truthiness of a possibly-absent number (absent or zero = falsy). -/
def optNatTruthy (v : Option Nat) : Bool :=
  match v with
  | some n => n != 0
  | none => false

/-- The character `{`. -/
def lbrace : Char := Char.ofNat 123

/-- The character `}`. -/
def rbrace : Char := Char.ofNat 125

/-- Lower-case hexadecimal digit for a value below 16. -/
def hexDigit (n : Nat) : Char :=
  if n < 10 then Char.ofNat (48 + n) else Char.ofNat (87 + n)

/-- Escaping of one character inside a JSON string literal, as
`JSON.stringify` performs it. -/
def escapeChar (c : Char) : String :=
  if c = '"' then "\\\""
  else if c = '\\' then "\\\\"
  else if c = '\n' then "\\n"
  else if c = '\r' then "\\r"
  else if c = '\t' then "\\t"
  else if c = '\x08' then "\\b"
  else if c = '\x0c' then "\\f"
  else if c.toNat < 32 then
    "\\u00" ++ String.singleton (hexDigit (c.toNat / 16)) ++ String.singleton (hexDigit (c.toNat % 16))
  else String.singleton c

/-- A JSON string literal with quotes and escapes. -/
def quoteJson (s : String) : String :=
  "\"" ++ String.join (s.data.map escapeChar) ++ "\""

mutual

/-- Model of `JSON.stringify` on a JSON value (no spacing, object fields in
insertion order, exactly as the V8 runtime prints them). -/
def Json.stringify : Json → String
  | .null => "null"
  | .bool true => "true"
  | .bool false => "false"
  | .num n => toString n
  | .str s => quoteJson s
  | .arr xs => "[" ++ stringifyElems xs ++ "]"
  | .obj fs => String.singleton lbrace ++ stringifyFields fs ++ String.singleton rbrace

/-- Comma-separated rendering of array elements. -/
def stringifyElems : List Json → String
  | [] => ""
  | [x] => Json.stringify x
  | x :: y :: rest => Json.stringify x ++ "," ++ stringifyElems (y :: rest)

/-- Comma-separated rendering of object fields. -/
def stringifyFields : List (String × Json) → String
  | [] => ""
  | [(k, v)] => quoteJson k ++ ":" ++ Json.stringify v
  | (k, v) :: f :: rest => quoteJson k ++ ":" ++ Json.stringify v ++ "," ++ stringifyFields (f :: rest)

end

/-- Whether the first list starts with the second. -/
def listStartsWith : List Char → List Char → Bool
  | _, [] => true
  | [], _ :: _ => false
  | c :: cs, p :: ps => c == p && listStartsWith cs ps

/-- Whether `pat` occurs as a contiguous sublist. -/
def listContainsSub (pat : List Char) : List Char → Bool
  | [] => listStartsWith [] pat
  | c :: rest => listStartsWith (c :: rest) pat || listContainsSub pat rest

/-- Model of JavaScript `s.includes(pat)`. -/
def containsSubstr (s pat : String) : Bool :=
  listContainsSub pat.data s.data

/-- JSON whitespace. -/
def isWs (c : Char) : Bool := c == ' ' || c == '\n' || c == '\t' || c == '\r'

/-- Drop leading JSON whitespace. -/
def skipWs (cs : List Char) : List Char := cs.dropWhile isWs

/-- Value of a hexadecimal digit character. -/
def hexVal (c : Char) : Option Nat :=
  if '0' ≤ c ∧ c ≤ '9' then some (c.toNat - 48)
  else if 'a' ≤ c ∧ c ≤ 'f' then some (c.toNat - 87)
  else if 'A' ≤ c ∧ c ≤ 'F' then some (c.toNat - 55)
  else none

/-- Parse the body of a JSON string literal (after the opening quote),
accumulating characters in reverse. -/
def pStringBody : Nat → List Char → List Char → Option (String × List Char)
  | 0, _, _ => none
  | _ + 1, _, [] => none
  | fuel + 1, acc, c :: rest =>
    if c == '"' then some (String.mk acc.reverse, rest)
    else if c == '\\' then
      match rest with
      | [] => none
      | e :: rest2 =>
        if e == '"' then pStringBody fuel ('"' :: acc) rest2
        else if e == '\\' then pStringBody fuel ('\\' :: acc) rest2
        else if e == '/' then pStringBody fuel ('/' :: acc) rest2
        else if e == 'n' then pStringBody fuel ('\n' :: acc) rest2
        else if e == 't' then pStringBody fuel ('\t' :: acc) rest2
        else if e == 'r' then pStringBody fuel ('\r' :: acc) rest2
        else if e == 'b' then pStringBody fuel ('\x08' :: acc) rest2
        else if e == 'f' then pStringBody fuel ('\x0c' :: acc) rest2
        else if e == 'u' then
          match rest2 with
          | h1 :: h2 :: h3 :: h4 :: rest3 =>
            match hexVal h1, hexVal h2, hexVal h3, hexVal h4 with
            | some a, some b, some c2, some d =>
              pStringBody fuel (Char.ofNat (((a * 16 + b) * 16 + c2) * 16 + d) :: acc) rest3
            | _, _, _, _ => none
          | _ => none
        else none
    else pStringBody fuel (c :: acc) rest

/-- Numeric value of a digit string. -/
def digitsToNat (ds : List Char) : Nat :=
  ds.foldl (fun n c => n * 10 + (c.toNat - 48)) 0

/-- Parse an integer JSON number starting at `cs` (fractional and exponent
forms are outside the model; the reviewed code never feeds them to the
parser on the paths under verification). -/
def pNum (cs : List Char) : Option (Json × List Char) :=
  let neg : Bool := match cs with | '-' :: _ => true | _ => false
  let cs1 := match cs with | '-' :: t => t | _ => cs
  let ds := cs1.takeWhile Char.isDigit
  let rest := cs1.dropWhile Char.isDigit
  if ds.isEmpty then none
  else
    match rest with
    | '.' :: _ => none
    | 'e' :: _ => none
    | 'E' :: _ => none
    | _ => some (Json.num (if neg then -(digitsToNat ds : Int) else (digitsToNat ds : Int)), rest)

mutual

/-- Fuel-indexed recursive-descent JSON value parser, modelling
`JSON.parse`. -/
def pVal : Nat → List Char → Option (Json × List Char)
  | 0, _ => none
  | fuel + 1, cs =>
    match skipWs cs with
    | [] => none
    | c :: rest =>
      if c == lbrace then pObj fuel (skipWs rest)
      else if c == '[' then pArr fuel (skipWs rest)
      else if c == '"' then (pStringBody fuel [] rest).map (fun r => (Json.str r.1, r.2))
      else if c == 't' then
        match rest with
        | 'r' :: 'u' :: 'e' :: r2 => some (Json.bool true, r2)
        | _ => none
      else if c == 'f' then
        match rest with
        | 'a' :: 'l' :: 's' :: 'e' :: r2 => some (Json.bool false, r2)
        | _ => none
      else if c == 'n' then
        match rest with
        | 'u' :: 'l' :: 'l' :: r2 => some (Json.null, r2)
        | _ => none
      else if c == '-' || c.isDigit then pNum (c :: rest)
      else none

/-- Parse an object body (input already past the opening brace and
whitespace). -/
def pObj : Nat → List Char → Option (Json × List Char)
  | 0, _ => none
  | fuel + 1, cs =>
    match cs with
    | [] => none
    | c :: rest =>
      if c == rbrace then some (Json.obj [], rest)
      else pObjFields fuel [] cs

/-- Parse the fields of a non-empty object body. -/
def pObjFields : Nat → List (String × Json) → List Char → Option (Json × List Char)
  | 0, _, _ => none
  | fuel + 1, acc, cs =>
    match skipWs cs with
    | '"' :: rest =>
      match pStringBody fuel [] rest with
      | some (k, rest2) =>
        match skipWs rest2 with
        | ':' :: rest3 =>
          match pVal fuel rest3 with
          | some (v, rest4) =>
            match skipWs rest4 with
            | ',' :: rest5 => pObjFields fuel (acc ++ [(k, v)]) rest5
            | c :: rest5 => if c == rbrace then some (Json.obj (acc ++ [(k, v)]), rest5) else none
            | [] => none
          | none => none
        | _ => none
      | none => none
    | _ => none

/-- Parse an array body (input already past the opening bracket and
whitespace). -/
def pArr : Nat → List Char → Option (Json × List Char)
  | 0, _ => none
  | fuel + 1, cs =>
    match cs with
    | ']' :: rest => some (Json.arr [], rest)
    | _ => pArrElems fuel [] cs

/-- Parse the elements of a non-empty array body. -/
def pArrElems : Nat → List Json → List Char → Option (Json × List Char)
  | 0, _, _ => none
  | fuel + 1, acc, cs =>
    match pVal fuel cs with
    | some (v, rest) =>
      match skipWs rest with
      | ',' :: rest2 => pArrElems fuel (acc ++ [v]) rest2
      | ']' :: rest2 => some (Json.arr (acc ++ [v]), rest2)
      | _ => none
    | none => none

end

/-- Model of `JSON.parse(s)`: a whole-input parse, `none` when the runtime
would throw. -/
def parseJson (s : String) : Option Json :=
  match pVal (s.length + 16) s.data with
  | some (j, rest) => if (skipWs rest).isEmpty then some j else none
  | none => none

/-- Model of JavaScript `s.trim()` (ASCII whitespace). -/
def jsTrim (s : String) : String :=
  String.mk (((s.data.dropWhile isWs).reverse.dropWhile isWs).reverse)

/-- Model of JavaScript `s.startsWith(pre)`. -/
def strStartsWith (s pre : String) : Bool := listStartsWith s.data pre.data

/-! ## Unified (Gemini-side) request model

The adapters receive `GenerateContentParameters` from the `@google/genai`
SDK and access their fields duck-typed (`as any`).  A content part may
carry any subset of `text`, `functionCall`, `functionResponse`; the latter
two are raw JSON objects whose `name`, `args`, `id`, `response` fields the
code reads with optional chaining. -/

/-- One content part of a message. -/
structure GPart where
  text : Option String := none
  functionCall : Option Json := none
  functionResponse : Option Json := none
  deriving Repr

/-- One message (`Content`) of the request. -/
structure GContent where
  role : Option String := none
  parts : List GPart := []
  deriving Repr

/-- The `contents` field of a request: a single message or a list. -/
inductive ContentsU where
  | one (c : GContent)
  | many (cs : List GContent)
  deriving Repr

/-- A function declaration inside a tool entry. -/
structure FunctionDecl where
  name : String
  description : Option String := none
  parameters : Option Json := none
  deriving Repr

/-- One entry of `config.tools`. -/
structure GTool where
  functionDeclarations : Option (List FunctionDecl) := none
  deriving Repr

/-- The `systemInstruction` field: a plain string or structured content
with parts. -/
inductive SystemInstructionU where
  | strV (s : String)
  | contentV (parts : List GPart)
  deriving Repr

/-- Generation config of the request. -/
structure GenConfig where
  systemInstruction : Option SystemInstructionU := none
  tools : Option (List GTool) := none
  temperature : Option Rat := none
  deriving Repr

/-- `GenerateContentParameters`, restricted to the fields the adapters
read. -/
structure GenParams where
  config : Option GenConfig := none
  contents : Option ContentsU := none
  deriving Repr

/-- The list of messages denoted by a `contents` union value. -/
def contentsList : ContentsU → List GContent
  | .one c => [c]
  | .many cs => cs

/-! ## Ollama wire model and request translation (first copy of
`OllamaContentGenerator.mapGeminiParamsToOllama`) -/

/-- The `function` field of an outgoing Ollama tool call: `name` is read
with optional chaining (so possibly `undefined`), `args` defaults to `{}`
when falsy. -/
structure OFunctionRef where
  name : Option Json
  arguments : Json
  deriving Repr

/-- One tool call attached to an outgoing assistant message. -/
structure OToolCall where
  function : OFunctionRef
  deriving Repr

/-- An outgoing Ollama chat message.  `tool_calls` is spread in only when
non-empty. -/
structure OMessage where
  role : String
  content : String
  tool_calls : Option (List OToolCall) := none
  deriving Repr

/-- An Ollama tool declaration (`{type: 'function', function: {name,
description, parameters}}`, flattened). -/
structure OTool where
  name : String
  description : String
  parameters : Json
  deriving Repr

/-- Result of `mapGeminiParamsToOllama`: message list, optional tool list,
and the options object (which carries only the optional temperature). -/
structure OllamaMapped where
  messages : List OMessage
  tools : Option (List OTool)
  options : Option Rat
  deriving Repr

/-- The default empty-object parameter schema. -/
def defaultSchema : Json := Json.obj [("type", Json.str "object"), ("properties", Json.obj [])]

/-- Truthiness of the `systemInstruction` value (empty string falsy,
structured content truthy). -/
def siTruthy (si : SystemInstructionU) : Bool :=
  match si with
  | .strV s => s != ""
  | .contentV _ => true

/-- Text assembled from the system instruction: pass a string through, or
join the part texts with the literal two-character separator `\n` exactly
as the source writes it. -/
def systemText (si : SystemInstructionU) : String :=
  match si with
  | .strV s => s
  | .contentV parts => String.intercalate "\\n" (parts.map (fun p => p.text.getD ""))

/-- System messages produced by the translation (none when the
instruction is absent, falsy, or yields empty text). -/
def systemMessages (cfg : Option GenConfig) : List OMessage :=
  match cfg with
  | none => []
  | some cf =>
    match cf.systemInstruction with
    | none => []
    | some si =>
      if siTruthy si then
        let text := systemText si
        if text != "" then [{ role := "system", content := text }] else []
      else []

/-- One function declaration mapped to the Ollama tool shape. -/
def fdToOTool (fd : FunctionDecl) : OTool :=
  { name := fd.name,
    description := fd.description.getD "",
    parameters := jsOr fd.parameters defaultSchema }

/-- Value of the local `ollamaTools` variable: collected only when tools
are supported and `config.tools` is a non-empty list. -/
def ollamaToolsVar (ts : Bool) (cfg : Option GenConfig) : Option (List OTool) :=
  match cfg.bind (fun c => c.tools) with
  | some l =>
    if ts && l.length > 0 then
      some (l.foldr (fun t acc => (t.functionDeclarations.getD []).map fdToOTool ++ acc) [])
    else none
  | none => none

/-- Final `tools` field: `ollamaTools?.length ? ollamaTools : undefined`. -/
def finalTools (v : Option (List OTool)) : Option (List OTool) :=
  match v with
  | some l => if l.length > 0 then some l else none
  | none => none

/-- Role mapping: `model` becomes `assistant`, everything else `user`. -/
def roleOf (c : GContent) : String :=
  if c.role == some "model" then "assistant" else "user"

/-- Content of a backend tool-result message:
`JSON.stringify(part.functionResponse?.response || {})`. -/
def frContent (p : GPart) : String :=
  Json.stringify (jsOr (p.functionResponse.bind (fun j => j.getField "response")) (Json.obj []))

/-- An outgoing tool call built from a `functionCall` part. -/
def mkToolCall (p : GPart) : OToolCall :=
  { function := { name := p.functionCall.bind (fun j => j.getField "name"),
                  arguments := jsOr (p.functionCall.bind (fun j => j.getField "args")) (Json.obj []) } }

/-- Messages produced from one request message: tool-result messages
first (skipping the whole message when tools are unsupported), then the
text/tool-call message unless empty. -/
def contentToMessages (ts : Bool) (c : GContent) : List OMessage :=
  let frParts := c.parts.filter (fun p => jsOptTruthy p.functionResponse)
  if frParts.length > 0 && !ts then []
  else
    let toolMsgs : List OMessage :=
      if frParts.length > 0 then
        frParts.map (fun p => { role := "tool", content := frContent p })
      else []
    let isToolResponse := frParts.length > 0
    let textParts := c.parts.filter (fun p => strOptTruthy p.text)
    let fcParts := c.parts.filter (fun p => jsOptTruthy p.functionCall)
    if !isToolResponse || textParts.length > 0 || fcParts.length > 0 then
      let text := String.join (textParts.map (fun p => p.text.getD ""))
      let toolCalls := if ts then fcParts.map mkToolCall else []
      if text != "" || toolCalls.length > 0 then
        toolMsgs ++ [{ role := roleOf c, content := text,
                       tool_calls := if toolCalls.length > 0 then some toolCalls else none }]
      else toolMsgs
    else toolMsgs

/-- Messages produced from the whole `contents` union, in order. -/
def contentsMessages (ts : Bool) (contents : Option ContentsU) : List OMessage :=
  match contents with
  | none => []
  | some cu => (contentsList cu).foldr (fun c acc => contentToMessages ts c ++ acc) []

/-- `OllamaContentGenerator.mapGeminiParamsToOllama` (first copy), with
the instance field `toolsSupported` made an explicit argument `ts`. -/
def mapGeminiParamsToOllama (ts : Bool) (req : GenParams) : OllamaMapped :=
  { messages := systemMessages req.config ++ contentsMessages ts req.contents,
    tools := finalTools (ollamaToolsVar ts req.config),
    options := req.config.bind (fun c => c.temperature) }

/-! ## Second copy of `mapGeminiParamsToOllama`

The source file holds a second version of the Ollama generator.  Its
request translator is transcribed independently below so the two can be
compared. -/

/-- Truthiness of `systemInstruction` in the second copy. -/
def siTruthyV2 (si : SystemInstructionU) : Bool :=
  match si with
  | .strV s => s != ""
  | .contentV _ => true

/-- System-instruction text in the second copy. -/
def systemTextV2 (si : SystemInstructionU) : String :=
  match si with
  | .strV s => s
  | .contentV parts => String.intercalate "\\n" (parts.map (fun p => p.text.getD ""))

/-- System messages in the second copy. -/
def systemMessagesV2 (cfg : Option GenConfig) : List OMessage :=
  match cfg with
  | none => []
  | some cf =>
    match cf.systemInstruction with
    | none => []
    | some si =>
      if siTruthyV2 si then
        let text := systemTextV2 si
        if text != "" then [{ role := "system", content := text }] else []
      else []

/-- Function declaration mapping in the second copy. -/
def fdToOToolV2 (fd : FunctionDecl) : OTool :=
  { name := fd.name,
    description := fd.description.getD "",
    parameters := jsOr fd.parameters defaultSchema }

/-- The `ollamaTools` variable in the second copy. -/
def ollamaToolsVarV2 (ts : Bool) (cfg : Option GenConfig) : Option (List OTool) :=
  match cfg.bind (fun c => c.tools) with
  | some l =>
    if ts && l.length > 0 then
      some (l.foldr (fun t acc => (t.functionDeclarations.getD []).map fdToOToolV2 ++ acc) [])
    else none
  | none => none

/-- Final `tools` field in the second copy. -/
def finalToolsV2 (v : Option (List OTool)) : Option (List OTool) :=
  match v with
  | some l => if l.length > 0 then some l else none
  | none => none

/-- Role mapping in the second copy. -/
def roleOfV2 (c : GContent) : String :=
  if c.role == some "model" then "assistant" else "user"

/-- Tool-result message content in the second copy. -/
def frContentV2 (p : GPart) : String :=
  Json.stringify (jsOr (p.functionResponse.bind (fun j => j.getField "response")) (Json.obj []))

/-- Outgoing tool call in the second copy. -/
def mkToolCallV2 (p : GPart) : OToolCall :=
  { function := { name := p.functionCall.bind (fun j => j.getField "name"),
                  arguments := jsOr (p.functionCall.bind (fun j => j.getField "args")) (Json.obj []) } }

/-- Per-message translation in the second copy. -/
def contentToMessagesV2 (ts : Bool) (c : GContent) : List OMessage :=
  let frParts := c.parts.filter (fun p => jsOptTruthy p.functionResponse)
  if frParts.length > 0 && !ts then []
  else
    let toolMsgs : List OMessage :=
      if frParts.length > 0 then
        frParts.map (fun p => { role := "tool", content := frContentV2 p })
      else []
    let isToolResponse := frParts.length > 0
    let textParts := c.parts.filter (fun p => strOptTruthy p.text)
    let fcParts := c.parts.filter (fun p => jsOptTruthy p.functionCall)
    if !isToolResponse || textParts.length > 0 || fcParts.length > 0 then
      let text := String.join (textParts.map (fun p => p.text.getD ""))
      let toolCalls := if ts then fcParts.map mkToolCallV2 else []
      if text != "" || toolCalls.length > 0 then
        toolMsgs ++ [{ role := roleOfV2 c, content := text,
                       tool_calls := if toolCalls.length > 0 then some toolCalls else none }]
      else toolMsgs
    else toolMsgs

/-- Whole-contents translation in the second copy. -/
def contentsMessagesV2 (ts : Bool) (contents : Option ContentsU) : List OMessage :=
  match contents with
  | none => []
  | some cu => (contentsList cu).foldr (fun c acc => contentToMessagesV2 ts c ++ acc) []

/-- The second copy of `mapGeminiParamsToOllama`. -/
def mapGeminiParamsToOllamaV2 (ts : Bool) (req : GenParams) : OllamaMapped :=
  { messages := systemMessagesV2 req.config ++ contentsMessagesV2 ts req.contents,
    tools := finalToolsV2 (ollamaToolsVarV2 ts req.config),
    options := req.config.bind (fun c => c.temperature) }

/-! ## Anthropic wire model and request translation
(`AnthropicContentGenerator.mapGeminiParamsToAnthropic`) -/

/-- An Anthropic content block parameter. -/
inductive ABlock where
  | text (t : String)
  | toolUse (id : Json) (name : Option Json) (input : Json)
  | toolResult (tool_use_id : Json) (content : String)
  deriving Repr

/-- An Anthropic message parameter. -/
structure AMessage where
  role : String
  content : List ABlock
  deriving Repr

/-- An Anthropic tool declaration. -/
structure ATool where
  name : String
  description : String
  input_schema : Json
  deriving Repr

/-- Result of `mapGeminiParamsToAnthropic`. -/
structure AnthropicParams where
  system : Option String
  messages : List AMessage
  tools : Option (List ATool)
  temperature : Option Rat
  max_tokens : Nat
  deriving Repr

/-- The `systemText` local of the Anthropic translator (empty when the
instruction is absent or falsy). -/
def anthropicSystemText (cfg : Option GenConfig) : String :=
  match cfg with
  | none => ""
  | some cf =>
    match cf.systemInstruction with
    | none => ""
    | some si =>
      if siTruthy si then
        match si with
        | .strV s => s
        | .contentV parts => String.intercalate "\\n" (parts.map (fun p => p.text.getD ""))
      else ""

/-- Function declaration mapped to the Anthropic tool shape. -/
def fdToATool (fd : FunctionDecl) : ATool :=
  { name := fd.name,
    description := fd.description.getD "",
    input_schema := jsOr fd.parameters defaultSchema }

/-- The `anthropicTools` local: collected whenever `config.tools` is a
non-empty list (the Anthropic adapter has no tool-support gate). -/
def anthropicToolsVar (cfg : Option GenConfig) : Option (List ATool) :=
  match cfg.bind (fun c => c.tools) with
  | some l =>
    if l.length > 0 then
      some (l.foldr (fun t acc => (t.functionDeclarations.getD []).map fdToATool ++ acc) [])
    else none
  | none => none

/-- Final Anthropic `tools` field. -/
def finalATools (v : Option (List ATool)) : Option (List ATool) :=
  match v with
  | some l => if l.length > 0 then some l else none
  | none => none

/-- Role mapping in the Anthropic translator. -/
def roleOfA (c : GContent) : String :=
  if c.role == some "model" then "assistant" else "user"

/-- Content blocks produced from one request message: tool results, then
a single joined text block, then tool-use blocks. -/
def aContentBlocks (c : GContent) : List ABlock :=
  let frParts := c.parts.filter (fun p => jsOptTruthy p.functionResponse)
  let frBlocks := frParts.map (fun p => ABlock.toolResult
      (jsOr (p.functionResponse.bind (fun j => j.getField "id")) (Json.str "unknown_id"))
      (Json.stringify (jsOr (p.functionResponse.bind (fun j => j.getField "response")) (Json.obj []))))
  let textParts := c.parts.filter (fun p => strOptTruthy p.text)
  let fcParts := c.parts.filter (fun p => jsOptTruthy p.functionCall)
  let textBlocks :=
    if textParts.length > 0 then
      [ABlock.text (String.join (textParts.map (fun p => p.text.getD "")))]
    else []
  let fcBlocks := fcParts.map (fun p => ABlock.toolUse
      (jsOr (p.functionCall.bind (fun j => j.getField "id")) (Json.str "unknown_id"))
      (p.functionCall.bind (fun j => j.getField "name"))
      (jsOr (p.functionCall.bind (fun j => j.getField "args")) (Json.obj [])))
  frBlocks ++ textBlocks ++ fcBlocks

/-- Anthropic message list: one message per request message with
non-empty blocks. -/
def aMessages (contents : Option ContentsU) : List AMessage :=
  match contents with
  | none => []
  | some cu =>
    (contentsList cu).foldr (fun c acc =>
      let blocks := aContentBlocks c
      (if blocks.length > 0 then [{ role := roleOfA c, content := blocks : AMessage }] else []) ++ acc) []

/-- `AnthropicContentGenerator.mapGeminiParamsToAnthropic`. -/
def mapGeminiParamsToAnthropic (req : GenParams) : AnthropicParams :=
  { system := (let st := anthropicSystemText req.config; if st != "" then some st else none),
    messages := aMessages req.contents,
    tools := finalATools (anthropicToolsVar req.config),
    temperature := req.config.bind (fun c => c.temperature),
    max_tokens := 8192 }

/-! ## Ollama backend responses, normalization, and the retry protocol -/

/-- A tool call in an Ollama response (`{function: {name, arguments}}`,
typed by the Ollama client). -/
structure RToolCall where
  name : String
  arguments : Json
  deriving Repr

/-- The `message` of a non-streaming Ollama chat response. -/
structure RMessage where
  content : String
  tool_calls : Option (List RToolCall) := none
  deriving Repr

/-- A non-streaming Ollama chat response. -/
structure OllamaChatResponse where
  message : Option RMessage := none
  prompt_eval_count : Option Nat := none
  eval_count : Option Nat := none
  deriving Repr

/-- A unified (Gemini-shaped) non-streaming response: one model candidate
with its parts, plus usage counters. -/
structure UnifiedResponse where
  parts : List GPart
  promptTokenCount : Nat
  candidatesTokenCount : Nat
  totalTokenCount : Nat
  deriving Repr

/-- Normalization of an Ollama chat response into the unified shape
(`generateContent`, after the call succeeds). -/
def normalizeOllama (r : OllamaChatResponse) : UnifiedResponse :=
  let textParts : List GPart :=
    match r.message with
    | some m => if m.content != "" then [{ text := some m.content }] else []
    | none => []
  let fcParts : List GPart :=
    match r.message with
    | some m =>
      match m.tool_calls with
      | some tcs =>
        if tcs.length > 0 then
          tcs.map (fun tc =>
            ({ functionCall := some (Json.obj [("name", Json.str tc.name), ("args", tc.arguments)]) } : GPart))
        else []
      | none => []
    | none => []
  { parts := textParts ++ fcParts,
    promptTokenCount := r.prompt_eval_count.getD 0,
    candidatesTokenCount := r.eval_count.getD 0,
    totalTokenCount := r.prompt_eval_count.getD 0 + r.eval_count.getD 0 }

/-- The classification predicate for backend errors that indicate missing
tool support (`isToolsNotSupportedError`); errors are modelled by their
message strings. -/
def isToolsNotSupportedError (e : String) : Bool :=
  containsSubstr e "does not support tools"

/-- One chat payload actually handed to `ollama.chat`. -/
structure ChatPayload where
  messages : List OMessage
  tools : Option (List OTool)
  options : Option Rat
  deriving Repr

/-- Placeholder payload used only as a default for safe list indexing in
statements. -/
def emptyPayload : ChatPayload := { messages := [], tools := none, options := none }

/-- Outcome of one `generateContent` run: the payloads sent in order, the
final result (errors wrapped as the source wraps them), and the
tool-support flag afterwards. -/
structure GenOutcome where
  sent : List ChatPayload
  result : Except String UnifiedResponse
  tsAfter : Bool

/-- The translated payload of the first `ollama.chat` call (`const \x7b
messages, tools, options \x7d = this.mapGeminiParamsToOllama(request)`). -/
def ollamaFirstPayload (ts : Bool) (req : GenParams) : ChatPayload :=
  { messages := (mapGeminiParamsToOllama ts req).messages,
    tools := (mapGeminiParamsToOllama ts req).tools,
    options := (mapGeminiParamsToOllama ts req).options }

/-- The payload of the retry call in `generateContent`: the SAME
translated messages and options, with the `tools` field omitted. -/
def ollamaRetryPayload (ts : Bool) (req : GenParams) : ChatPayload :=
  { messages := (mapGeminiParamsToOllama ts req).messages,
    tools := none,
    options := (mapGeminiParamsToOllama ts req).options }

/-- `OllamaContentGenerator.generateContent` around a backend oracle
`bk` (call index ↦ payload ↦ outcome).  On a tools-unsupported failure in
the Enabled state the flag is cleared and the call is retried once with
the same translated messages and the tool list simply omitted; any other
failure is wrapped and propagated. -/
def ollamaGenerateContent (ts : Bool) (req : GenParams)
    (bk : Nat → ChatPayload → Except String OllamaChatResponse) : GenOutcome :=
  match bk 0 (ollamaFirstPayload ts req) with
  | .ok r => { sent := [ollamaFirstPayload ts req], result := .ok (normalizeOllama r), tsAfter := ts }
  | .error e =>
    if isToolsNotSupportedError e && ts then
      match bk 1 (ollamaRetryPayload ts req) with
      | .ok r =>
        { sent := [ollamaFirstPayload ts req, ollamaRetryPayload ts req],
          result := .ok (normalizeOllama r), tsAfter := false }
      | .error e2 =>
        { sent := [ollamaFirstPayload ts req, ollamaRetryPayload ts req],
          result := .error ("Ollama generateContent failed: " ++ e2),
          tsAfter := false }
    else
      { sent := [ollamaFirstPayload ts req],
        result := .error ("Ollama generateContent failed: " ++ e),
        tsAfter := ts }

/-- The message of one streaming Ollama chunk. -/
structure CMessage where
  content : String := ""
  tool_calls : Option (List RToolCall) := none
  deriving Repr

/-- One streaming Ollama chunk. -/
structure OllamaChunk where
  message : Option CMessage := none
  prompt_eval_count : Option Nat := none
  eval_count : Option Nat := none
  done : Bool := false
  deriving Repr

/-- Outcome of establishing the stream in `generateContentStream`: the
payloads sent, the established backend chunk sequence (or the wrapped
error), and the tool-support flag afterwards. -/
structure StreamSetupOutcome where
  sent : List ChatPayload
  stream : Except String (List OllamaChunk)
  tsAfter : Bool

/-- The payload of the retry call in `generateContentStream`: the
request re-translated with the flag off, `tools` set to `undefined`. -/
def ollamaStreamRetryPayload (req : GenParams) : ChatPayload :=
  { messages := (mapGeminiParamsToOllama false req).messages,
    tools := none,
    options := (mapGeminiParamsToOllama false req).options }

/-- Call-establishment part of
`OllamaContentGenerator.generateContentStream`: on a tools-unsupported
failure in the Enabled state the flag is cleared, the request is
RE-TRANSLATED with the flag off, `tools` is set to `undefined`, and the
call is retried once. -/
def ollamaStreamSetup (ts : Bool) (req : GenParams)
    (bk : Nat → ChatPayload → Except String (List OllamaChunk)) : StreamSetupOutcome :=
  match bk 0 (ollamaFirstPayload ts req) with
  | .ok s => { sent := [ollamaFirstPayload ts req], stream := .ok s, tsAfter := ts }
  | .error e =>
    if isToolsNotSupportedError e && ts then
      match bk 1 (ollamaStreamRetryPayload req) with
      | .ok s =>
        { sent := [ollamaFirstPayload ts req, ollamaStreamRetryPayload req],
          stream := .ok s, tsAfter := false }
      | .error e2 =>
        { sent := [ollamaFirstPayload ts req, ollamaStreamRetryPayload req],
          stream := .error ("Ollama generateContentStream failed: " ++ e2),
          tsAfter := false }
    else
      { sent := [ollamaFirstPayload ts req],
        stream := .error ("Ollama generateContentStream failed: " ++ e),
        tsAfter := ts }

/-! ## Ollama stream aggregation (first copy, with hallucinated-tool-call
recovery) -/

/-- A flat `{name, args}` entry of the `functionCalls` convenience
property. -/
structure FlatFC where
  name : Json
  args : Json
  deriving Repr

/-- One unified chunk yielded by the Ollama stream aggregator. -/
structure UnifiedChunk where
  parts : List GPart
  finishReason : Option String
  promptTokenCount : Nat
  candidatesTokenCount : Nat
  totalTokenCount : Nat
  textProp : Option String
  functionCalls : Option (List FlatFC)
  deriving Repr

/-- Mutable loop state of the aggregator. -/
structure AggState where
  promptTokenCount : Nat := 0
  candidatesTokenCount : Nat := 0
  totalTokenCount : Nat := 0
  accumulatedText : String := ""
  isPotentiallyJson : Bool := false
  deriving Repr

/-- Intermediate per-chunk data computed before deciding whether to
yield. -/
structure AggCoreOut where
  parts : List GPart
  p : Nat
  c : Nat
  t : Nat
  acc : String
  ipj : Bool
  cfc : Option (List FlatFC)
  deriving Repr

/-- The `text` convenience property:
`parts.find((p) => p.text)?.text || undefined`. -/
def textPropOf (ps : List GPart) : Option String :=
  (ps.find? (fun p => strOptTruthy p.text)).bind (fun p => p.text)

/-- A response-side tool call turned into a unified functionCall part. -/
def rcPart (tc : RToolCall) : GPart :=
  { functionCall := some (Json.obj [("name", Json.str tc.name), ("args", tc.arguments)]) }

/-- The body of one iteration of the streaming loop, before the yield
decision: text accumulation with the potentially-JSON classification,
structured tool calls, usage counters, and end-of-stream recovery of a
hallucinated JSON tool call. -/
def aggCore (st : AggState) (ch : OllamaChunk) : AggCoreOut :=
  let step1 : String × Bool × List GPart :=
    match ch.message with
    | some m =>
      if m.content != "" then
        let acc := st.accumulatedText ++ m.content
        let ipj :=
          if strStartsWith (jsTrim acc) (String.singleton lbrace) && containsSubstr acc "\"name\"" then
            true
          else st.isPotentiallyJson
        if !ipj then ("", ipj, [{ text := some acc }])
        else (acc, ipj, [])
      else (st.accumulatedText, st.isPotentiallyJson, [])
    | none => (st.accumulatedText, st.isPotentiallyJson, [])
  let acc1 := step1.1
  let ipj1 := step1.2.1
  let parts1 := step1.2.2
  let parts2 := parts1 ++
    (match ch.message with
     | some m =>
       match m.tool_calls with
       | some tcs => if tcs.length > 0 then tcs.map rcPart else []
       | none => []
     | none => [])
  let p := if optNatTruthy ch.prompt_eval_count then ch.prompt_eval_count.getD 0 else st.promptTokenCount
  let c := if optNatTruthy ch.eval_count then ch.eval_count.getD 0 else st.candidatesTokenCount
  let t := if optNatTruthy ch.prompt_eval_count || optNatTruthy ch.eval_count then p + c else st.totalTokenCount
  let cfc : Option (List FlatFC) :=
    (ch.message.bind (fun m => m.tool_calls)).map
      (fun tcs => tcs.map (fun tc => { name := Json.str tc.name, args := tc.arguments }))
  let doneStep : List GPart × Option (List FlatFC) × String :=
    if ch.done && ipj1 && jsTrim acc1 != "" then
      match parseJson (jsTrim acc1) with
      | some j =>
        match j.getField "name", j.getField "arguments" with
        | some nm, some ar =>
          if nm.truthy && ar.truthy then
            (parts2 ++ [{ functionCall := some (Json.obj [("name", nm), ("args", ar)]) }],
             cfc.map (fun l => l ++ [{ name := nm, args := ar }]),
             "")
          else (parts2 ++ [{ text := some acc1 }], cfc, "")
        | _, _ => (parts2 ++ [{ text := some acc1 }], cfc, "")
      | none => (parts2 ++ [{ text := some acc1 }], cfc, "")
    else (parts2, cfc, acc1)
  { parts := doneStep.1, p := p, c := c, t := t,
    acc := doneStep.2.2, ipj := ipj1, cfc := doneStep.2.1 }

/-- The unified chunk yielded for one backend chunk. -/
def mkUnified (a : AggCoreOut) (done : Bool) : UnifiedChunk :=
  { parts := a.parts,
    finishReason := if done then some "STOP" else none,
    promptTokenCount := a.p,
    candidatesTokenCount := a.c,
    totalTokenCount := a.t,
    textProp := textPropOf a.parts,
    functionCalls := a.cfc }

/-- One full loop iteration: the new state and the chunks yielded (one
when there are parts or the backend signalled completion, none
otherwise). -/
def aggStep (st : AggState) (ch : OllamaChunk) : AggState × List UnifiedChunk :=
  let a := aggCore st ch
  let ys := if a.parts.length > 0 || ch.done then [mkUnified a ch.done] else []
  ({ promptTokenCount := a.p, candidatesTokenCount := a.c, totalTokenCount := a.t,
     accumulatedText := a.acc, isPotentiallyJson := a.ipj }, ys)

/-- The aggregation loop over a backend chunk sequence. -/
def ollamaAggregate (st : AggState) : List OllamaChunk → List UnifiedChunk
  | [] => []
  | ch :: rest =>
    let r := aggStep st ch
    r.2 ++ ollamaAggregate r.1 rest

/-- The unified chunk sequence produced by a fully consumed Ollama
stream (first copy of `generateContentStream`). -/
def ollamaStreamChunks (chs : List OllamaChunk) : List UnifiedChunk :=
  ollamaAggregate {} chs

/-! ## Anthropic create calls and stream aggregation -/

/-- The argument object of `client.messages.create` /
`anthropic.messages.stream` (minus the constant model name). -/
structure ACreateCall where
  system : Option String
  messages : List AMessage
  tools : Option (List ATool)
  temperature : Option Rat
  max_tokens : Nat
  deriving Repr

/-- The payload `AnthropicContentGenerator.generateContent` sends. -/
def anthropicGenerateContentRequest (req : GenParams) : ACreateCall :=
  let p := mapGeminiParamsToAnthropic req
  { system := p.system, messages := p.messages, tools := p.tools,
    temperature := p.temperature, max_tokens := p.max_tokens }

/-- The payload `AnthropicContentGenerator.generateContentStream`
sends. -/
def anthropicStreamRequest (req : GenParams) : ACreateCall :=
  let p := mapGeminiParamsToAnthropic req
  { system := p.system, messages := p.messages, tools := p.tools,
    temperature := p.temperature, max_tokens := p.max_tokens }

/-- One event of the Anthropic SDK stream, restricted to the fields the
adapter reads (a usage object is modelled by the token count it
carries). -/
inductive AStreamEvent where
  | messageStart (input_tokens : Option Nat)
  | textDelta (text : String)
  | messageDelta (output_tokens : Option Nat)
  | otherEvent
  deriving Repr

/-- A content block of the final Anthropic message. -/
inductive AFinalBlock where
  | text (t : String)
  | toolUse (id : String) (name : String) (input : Json)
  | otherBlock
  deriving Repr

/-- The final message awaited after the event loop. -/
structure AFinalMessage where
  content : List AFinalBlock
  usage : Option Nat
  deriving Repr

/-- One unified chunk yielded by the Anthropic stream adapter.  The
yielded objects never carry a `finishReason`, modelled as the constant
`none`. -/
structure AChunk where
  parts : List GPart
  finishReason : Option String
  promptTokenCount : Nat
  candidatesTokenCount : Nat
  totalTokenCount : Nat
  deriving Repr

/-- Loop state of the Anthropic stream adapter. -/
structure AAggState where
  p : Nat := 0
  c : Nat := 0
  currentText : String := ""
  deriving Repr

/-- One iteration of the Anthropic event loop: update counters or the
text accumulator, then yield a chunk holding the whole accumulated text
(no finish marker field exists on the yielded object). -/
def aStreamStep (st : AAggState) (ev : AStreamEvent) : AAggState × AChunk :=
  let st' :=
    match ev with
    | .messageStart u =>
      match u with
      | some n => { st with p := n }
      | none => st
    | .textDelta t => { st with currentText := st.currentText ++ t }
    | .messageDelta u =>
      match u with
      | some n => { st with c := n }
      | none => st
    | .otherEvent => st
  (st', { parts := [{ text := some st'.currentText }],
          finishReason := none,
          promptTokenCount := st'.p,
          candidatesTokenCount := st'.c,
          totalTokenCount := st'.p + st'.c })

/-- The event-loop part of the Anthropic stream adapter. -/
def aStreamLoop (st : AAggState) : List AStreamEvent → List AChunk × AAggState
  | [] => ([], st)
  | ev :: rest =>
    let r := aStreamStep st ev
    let rr := aStreamLoop r.1 rest
    (r.2 :: rr.1, rr.2)

/-- Parts of the final Anthropic message (text and tool-use blocks; other
block types are ignored). -/
def aFinalParts (blocks : List AFinalBlock) : List GPart :=
  blocks.foldr (fun b acc =>
    match b with
    | .text t => { text := some t : GPart } :: acc
    | .toolUse id name input =>
      { functionCall := some (Json.obj
          [("name", Json.str name), ("args", input), ("id", Json.str id)]) : GPart } :: acc
    | .otherBlock => acc) []

/-- The full chunk sequence of `AnthropicContentGenerator
.generateContentStream` over a fully consumed stream: the per-event
chunks, then - only when the final message contributed parts - one final
chunk; no yielded chunk carries a finish marker. -/
def anthropicAggregate (events : List AStreamEvent) (fin : AFinalMessage) : List AChunk :=
  let r := aStreamLoop {} events
  let st := r.2
  let c2 := match fin.usage with | some n => n | none => st.c
  let parts := aFinalParts fin.content
  r.1 ++
    (if parts.length > 0 then
      [{ parts := parts, finishReason := none,
         promptTokenCount := st.p, candidatesTokenCount := c2,
         totalTokenCount := st.p + c2 }]
     else [])

/-! ## Token estimation and embeddings -/

/-- Contribution of one part to the token-estimation text:
`p.text || JSON.stringify(p.functionCall || {})`. -/
def countPartStr (p : GPart) : String :=
  if strOptTruthy p.text then p.text.getD ""
  else Json.stringify (jsOr p.functionCall (Json.obj []))

/-- `OllamaContentGenerator.countTokens`: parts of one message joined by
single spaces, messages concatenated with no separator, then
`ceil(len / 4)`. -/
def ollamaCountTokens (contents : Option ContentsU) : Nat :=
  let totalText :=
    match contents with
    | none => ""
    | some cu =>
      (contentsList cu).foldl
        (fun s (c : GContent) => s ++ String.intercalate " " (c.parts.map countPartStr)) ""
  (totalText.length + 3) / 4

/-- `AnthropicContentGenerator.countTokens` (same computation,
transcribed from its own file). -/
def anthropicCountTokens (contents : Option ContentsU) : Nat :=
  let totalText :=
    match contents with
    | none => ""
    | some cu =>
      (contentsList cu).foldl
        (fun s (c : GContent) => s ++ String.intercalate " " (c.parts.map countPartStr)) ""
  (totalText.length + 3) / 4

/-- The `contents` union of an embedding request: a plain string, one
content, or a list of contents. -/
inductive EmbedContents where
  | strV (s : String)
  | one (c : GContent)
  | many (cs : List GContent)
  deriving Repr

/-- The input text `OllamaContentGenerator.embedContent` extracts. -/
def extractEmbedInput : Option EmbedContents → String
  | some (.strV s) => s
  | some (.one c) => String.intercalate " " (c.parts.map (fun p => p.text.getD ""))
  | some (.many cs) =>
    String.intercalate " " (cs.map (fun c =>
      String.intercalate " " (c.parts.map (fun p => p.text.getD ""))))
  | none => ""

/-- `OllamaContentGenerator.embedContent`: throws on empty extracted
text, otherwise forwards to the embeddings endpoint. -/
def ollamaEmbedContent (contents : Option EmbedContents)
    (bk : String → Except String (List Rat)) : Except String (List Rat) :=
  let input := extractEmbedInput contents
  if input == "" then .error "No text content for embeddings"
  else bk input

/-- `AnthropicContentGenerator.embedContent`: always throws. -/
def anthropicEmbedContent (_contents : Option EmbedContents) : Except String (List Rat) :=
  .error "Embeddings API is not supported via Anthropic module yet."

/-! ## Credential storage

`loadAnthropicApiKey` / `clearAnthropicApiKey` live in the reviewed
sources, but the `HybridTokenStorage` they call is not among them. -/

/-- Modelled from the spec: the stored credential record of the
credential collaborator (access token plus metadata), as
`HybridTokenStorage` returns it. -/
structure StoredToken where
  accessToken : String
  tokenType : String
  deriving Repr

/-- Modelled from the spec: a credential entry addressed by a fixed
logical key. -/
structure StoredCredentials where
  serverName : String
  token : Option StoredToken
  updatedAt : Nat
  deriving Repr

/-- Modelled from the spec: the key-value credential store state. -/
def CredStore : Type := List (String × StoredCredentials)

/-- Modelled from the spec: `get(key) -> credentials | absent` on a store
state. -/
def storeGet (s : CredStore) (k : String) : Option StoredCredentials :=
  (s.find? (fun e => e.1 == k)).map (fun e => e.2)

/-- Modelled from the spec: a successful `delete(key)` removes the
entry. -/
def storeDelete (s : CredStore) (k : String) : CredStore :=
  s.filter (fun e => e.1 != k)

/-- Outcome of one storage operation: a value, or a thrown storage
error. -/
inductive StoreOutcome (α : Type) where
  | ok (val : α)
  | failure (msg : String)

/-- The fixed logical key of the Anthropic API key entry. -/
def ANTHROPIC_API_KEY_ENTRY : String := "anthropic-api-key"

/-- `loadAnthropicApiKey`, as a function of the outcome of the underlying
`getCredentials` call: a truthy access token is returned, everything else
- including a thrown storage error - yields `none`. -/
def loadAnthropicApiKey (getOutcome : StoreOutcome (Option StoredCredentials)) : Option String :=
  match getOutcome with
  | .failure _ => none
  | .ok creds =>
    match creds with
    | some c =>
      match c.token with
      | some t => if t.accessToken != "" then some t.accessToken else none
      | none => none
    | none => none

/-- `clearAnthropicApiKey`: the underlying delete may fail, the failure
is caught and logged; returns the store afterwards and whether an error
escaped to the caller (never). -/
def clearAnthropicApiKey (s : CredStore) (deleteFails : Bool) : CredStore × Bool :=
  if deleteFails then (s, false)
  else (storeDelete s ANTHROPIC_API_KEY_ENTRY, false)

/-- Loading the Anthropic key against a store state whose read
succeeds. -/
def loadAnthropicApiKeyFrom (s : CredStore) : Option String :=
  loadAnthropicApiKey (.ok (storeGet s ANTHROPIC_API_KEY_ENTRY))

/-! ## Adapter lifetime: sequences of operations over the tool-support
flag -/

/-- One public operation on an `OllamaContentGenerator` instance,
packaged with the backend behaviour it will observe. -/
inductive AdapterOp where
  | genContent (req : GenParams) (bk : Nat → ChatPayload → Except String OllamaChatResponse)
  | genStream (req : GenParams) (bk : Nat → ChatPayload → Except String (List OllamaChunk))
  | countTok (contents : Option ContentsU)
  | embed (contents : Option EmbedContents) (bk : String → Except String (List Rat))

/-- The tool-support flag after one operation. -/
def stepTs (ts : Bool) : AdapterOp → Bool
  | .genContent req bk => (ollamaGenerateContent ts req bk).tsAfter
  | .genStream req bk => (ollamaStreamSetup ts req bk).tsAfter
  | .countTok _ => ts
  | .embed _ _ => ts

/-- The tool-support flag after a sequence of operations on the same
instance. -/
def runTs (ts : Bool) : List AdapterOp → Bool
  | [] => ts
  | op :: ops => runTs (stepTs ts op) ops

/-! ## Derived definitions and concrete inputs used by the verification -/

/-- An Ollama message list free of tool content: no tool-result message
and no attached tool calls. -/
def toolFreeMessages (ms : List OMessage) : Bool :=
  ms.all (fun m => m.role != "tool" && m.tool_calls.isNone)

/-- Whether the request carries at least one tool (function)
declaration. -/
def hasFunctionDecl (req : GenParams) : Bool :=
  match req.config.bind (fun c => c.tools) with
  | some l => l.any (fun t => !(t.functionDeclarations.getD []).isEmpty)
  | none => false

/-- Per-message token-estimation text: the part contributions joined by
single spaces. -/
def estimatorMessageText (c : GContent) : String :=
  String.intercalate " " (c.parts.map countPartStr)

/-- The whole token-estimation text: per-message texts concatenated with
no separator between messages. -/
def estimatorText (contents : Option ContentsU) : String :=
  match contents with
  | none => ""
  | some cu => (contentsList cu).foldr (fun c acc => estimatorMessageText c ++ acc) ""

/-- Modelled from the spec: the C6 sentence reads `countTokens` as
joining the contributions of ALL parts across ALL messages with single
spaces, stringifying both function-call and function-response payloads.
This definition follows those words, for comparison with the code. -/
def claimedPartStr (p : GPart) : String :=
  if strOptTruthy p.text then p.text.getD ""
  else
    match p.functionCall with
    | some j => Json.stringify j
    | none =>
      match p.functionResponse with
      | some j => Json.stringify j
      | none => ""

/-- Modelled from the spec: the estimation text as the C6 sentence
describes it (single spaces between every two contributions). -/
def claimedEstimatorText (contents : Option ContentsU) : String :=
  match contents with
  | none => ""
  | some cu =>
    String.intercalate " "
      ((contentsList cu).foldr (fun c acc => c.parts.map claimedPartStr ++ acc) [])

/-- Modelled from the spec: `countTokens` as the C6 sentence describes
it. -/
def countTokensClaimed (contents : Option ContentsU) : Nat :=
  ((claimedEstimatorText contents).length + 3) / 4

/-- A request whose only message carries a single function-response part
(concrete input for C1). -/
def c1req : GenParams :=
  { contents := some (.many
      [{ role := some "user",
         parts := [{ functionResponse := some (Json.obj [("response", Json.obj [("ok", Json.bool true)])]) }] }]) }

/-- A backend that fails the first chat call with a tools-unsupported
error and succeeds on the retry. -/
def c1bk : Nat → ChatPayload → Except String OllamaChatResponse :=
  fun n _ =>
    if n == 0 then .error "model llama does not support tools"
    else .ok { message := some { content := "hi" } }

/-- The streaming analogue of `c1bk`. -/
def c1bks : Nat → ChatPayload → Except String (List OllamaChunk) :=
  fun n _ =>
    if n == 0 then .error "model llama does not support tools"
    else .ok [{ done := true }]

/-- A streaming chunk carrying only a text fragment (C2). -/
def c2chunkOf (s : String) : OllamaChunk := { message := some { content := s } }

/-- The exact chunk sequence of the C2 sentence: `"{"`, then
`"\"name\":\"foo\","`, then `"\"arguments\":{}}"`, then
end-of-stream. -/
def c2chunksSpec : List OllamaChunk :=
  [c2chunkOf "\x7b", c2chunkOf "\"name\":\"foo\",", c2chunkOf "\"arguments\":\x7b\x7d\x7d", { done := true }]

/-- The same text split so that the first fragment already satisfies the
potentially-JSON classification. -/
def c2chunksMerged : List OllamaChunk :=
  [c2chunkOf "\x7b\"name\":\"foo\",", c2chunkOf "\"arguments\":\x7b\x7d\x7d", { done := true }]

/-- A fully consumed Anthropic stream: three events and a final message
with one text block (concrete input for C5). -/
def c5events : List AStreamEvent := [.messageStart (some 2), .textDelta "Hello", .messageDelta (some 3)]

/-- The final message of the C5 concrete stream. -/
def c5final : AFinalMessage := { content := [.text "Hello"], usage := some 3 }

/-- The single chunk the Anthropic adapter yields on a one-event
stream whose final message is empty. -/
def c5wChunk : AChunk :=
  { parts := [{ text := some "" }], finishReason := none,
    promptTokenCount := 0, candidatesTokenCount := 0, totalTokenCount := 0 }

/-- Two messages of two characters each (concrete input for C6). -/
def c6reqCross : Option ContentsU :=
  some (.many [{ parts := [{ text := some "ab" }] }, { parts := [{ text := some "cd" }] }])

/-! ## Helper lemmas -/

theorem toolFreeMessages_append (l1 l2 : List OMessage) :
    toolFreeMessages (l1 ++ l2) = (toolFreeMessages l1 && toolFreeMessages l2) := by
  simp [toolFreeMessages, List.all_append]

theorem systemMessages_toolFree (cfg : Option GenConfig) :
    toolFreeMessages (systemMessages cfg) = true := by
  unfold systemMessages
  cases cfg with
  | none => rfl
  | some cf =>
    cases hsi : cf.systemInstruction with
    | none => simp [hsi, toolFreeMessages]
    | some si =>
      simp only [hsi]
      by_cases hs : siTruthy si = true
      · simp only [hs, if_true]
        by_cases ht : (systemText si != "") = true
        · simp [ht, toolFreeMessages]
        · simp [ht, toolFreeMessages]
      · simp [hs, toolFreeMessages]

theorem contentToMessages_false_toolFree (c : GContent) :
    toolFreeMessages (contentToMessages false c) = true := by
  unfold contentToMessages
  simp only [Bool.not_false, Bool.and_true]
  split
  · rfl
  · rename_i h
    have hfr : ¬ 0 < (c.parts.filter (fun p => jsOptTruthy p.functionResponse)).length := by
      simpa using h
    have hlen : (c.parts.filter (fun p => jsOptTruthy p.functionResponse)).length = 0 :=
      Nat.eq_zero_of_not_pos hfr
    simp only [hlen, gt_iff_lt, lt_self_iff_false, decide_False, Bool.false_eq_true, if_false]
    split
    · simp [toolFreeMessages, roleOf]
      split <;> simp
    · simp [toolFreeMessages]

theorem contentsMessages_false_toolFree (contents : Option ContentsU) :
    toolFreeMessages (contentsMessages false contents) = true := by
  unfold contentsMessages
  split
  · rfl
  · rename_i cu
    induction contentsList cu with
    | nil => rfl
    | cons c cs ih =>
      simp only [List.foldr]
      rw [toolFreeMessages_append, contentToMessages_false_toolFree, ih]
      rfl

theorem mapFalse_tools_none (req : GenParams) :
    (mapGeminiParamsToOllama false req).tools = none := by
  unfold mapGeminiParamsToOllama finalTools ollamaToolsVar
  cases req.config.bind (fun c => c.tools) <;> simp

theorem mapFalse_toolFree (req : GenParams) :
    toolFreeMessages (mapGeminiParamsToOllama false req).messages = true := by
  unfold mapGeminiParamsToOllama
  simp only []
  rw [toolFreeMessages_append, systemMessages_toolFree, contentsMessages_false_toolFree]
  rfl

theorem getLastQ_cons {α : Type} (a : α) (l : List α) (h : l ≠ []) :
    (a :: l).getLast? = l.getLast? := by
  cases l with
  | nil => exact absurd rfl h
  | cons b bs => simp [List.getLast?]

theorem getLastQ_append {α : Type} (l1 l2 : List α) (h : l2 ≠ []) :
    (l1 ++ l2).getLast? = l2.getLast? := by
  induction l1 with
  | nil => rfl
  | cons a l1 ih =>
    have hne : l1 ++ l2 ≠ [] := by
      intro hc
      exact h (List.append_eq_nil.mp hc).2
    rw [List.cons_append, getLastQ_cons a (l1 ++ l2) hne, ih]

theorem getLastQ_ne_nil {α : Type} (l : List α) (u : α) (h : l.getLast? = some u) : l ≠ [] := by
  intro hc
  subst hc
  simp [List.getLast?] at h

theorem aggStep_done (st : AggState) (ch : OllamaChunk) (h : ch.done = true) :
    (aggStep st ch).2 = [mkUnified (aggCore st ch) true] := by
  simp [aggStep, h]

theorem ollamaAggregate_last (chs : List OllamaChunk) :
    ∀ (st : AggState) (c : OllamaChunk), chs.getLast? = some c → c.done = true →
      ∃ u, (ollamaAggregate st chs).getLast? = some u ∧ u.finishReason = some "STOP" := by
  induction chs with
  | nil => intro st c h; simp [List.getLast?] at h
  | cons ch rest ih =>
    intro st c hlast hdone
    cases rest with
    | nil =>
      have hc : ch = c := by simpa [List.getLast?] using hlast
      subst hc
      refine ⟨mkUnified (aggCore st ch) true, ?_, rfl⟩
      simp [ollamaAggregate, aggStep_done st ch hdone, List.getLast?]
    | cons ch2 rest2 =>
      have hne : (ch2 :: rest2) ≠ ([] : List OllamaChunk) := by simp
      have hlast2 : (ch2 :: rest2).getLast? = some c := by
        rw [← getLastQ_cons ch (ch2 :: rest2) hne]; exact hlast
      obtain ⟨u, hu, hf⟩ := ih (aggStep st ch).1 c hlast2 hdone
      refine ⟨u, ?_, hf⟩
      show ((aggStep st ch).2 ++ ollamaAggregate (aggStep st ch).1 (ch2 :: rest2)).getLast? = some u
      rw [getLastQ_append _ _ (getLastQ_ne_nil _ u hu)]
      exact hu

theorem aStreamLoop_finish_none (evs : List AStreamEvent) :
    ∀ (st : AAggState), ∀ ch ∈ (aStreamLoop st evs).1, ch.finishReason = none := by
  induction evs with
  | nil => intro st ch h; simp [aStreamLoop] at h
  | cons ev rest ih =>
    intro st ch h
    simp only [aStreamLoop, List.mem_cons] at h
    rcases h with h | h
    · subst h; rfl
    · exact ih _ ch h

theorem anthropicAggregate_finish_none (evs : List AStreamEvent) (fin : AFinalMessage) :
    ∀ ch ∈ anthropicAggregate evs fin, ch.finishReason = none := by
  intro ch h
  unfold anthropicAggregate at h
  rw [List.mem_append] at h
  rcases h with h | h
  · exact aStreamLoop_finish_none evs _ ch h
  · split at h
    · rw [List.mem_singleton] at h; subst h; rfl
    · simp at h

theorem stepTs_false (op : AdapterOp) : stepTs false op = false := by
  cases op with
  | genContent req bk =>
    show (ollamaGenerateContent false req bk).tsAfter = false
    unfold ollamaGenerateContent
    cases bk 0 (ollamaFirstPayload false req) with
    | ok r => rfl
    | error e => simp
  | genStream req bk =>
    show (ollamaStreamSetup false req bk).tsAfter = false
    unfold ollamaStreamSetup
    cases bk 0 (ollamaFirstPayload false req) with
    | ok s => rfl
    | error e => simp
  | countTok contents => rfl
  | embed contents bk => rfl

theorem runTs_from_false (ops : List AdapterOp) : runTs false ops = false := by
  induction ops with
  | nil => rfl
  | cons op ops ih => simp [runTs, stepTs_false, ih]

theorem runTs_split (ts : Bool) (l1 l2 : List AdapterOp) :
    runTs ts (l1 ++ l2) = runTs (runTs ts l1) l2 := by
  induction l1 generalizing ts with
  | nil => rfl
  | cons op l1 ih => simp [runTs, ih]

theorem collect_length_pos {α : Type} (f : FunctionDecl → α) (l : List GTool) :
    0 < (l.foldr (fun t acc => (t.functionDeclarations.getD []).map f ++ acc) []).length ↔
      l.any (fun t => !(t.functionDeclarations.getD []).isEmpty) = true := by
  induction l with
  | nil => simp
  | cons t ts ih =>
    simp only [List.foldr, List.any_cons, List.length_append, List.length_map, Bool.or_eq_true]
    rw [← ih]
    cases (t.functionDeclarations.getD []) with
    | nil => simp
    | cons fd fds => simp

theorem any_length_pos (l : List GTool) (p : GTool → Bool) (h : l.any p = true) : 0 < l.length := by
  cases l with
  | nil => simp at h
  | cons t ts => simp

theorem gen_retry_shape (ts : Bool) (req : GenParams)
    (bk : Nat → ChatPayload → Except String OllamaChatResponse) :
    (ollamaGenerateContent ts req bk).sent.length ≤ 2 ∧
    ((ollamaGenerateContent ts req bk).sent.length = 2 →
      ts = true ∧ (ollamaGenerateContent ts req bk).tsAfter = false ∧
      ((ollamaGenerateContent ts req bk).sent.getD 1 emptyPayload).tools = none ∧
      ((ollamaGenerateContent ts req bk).sent.getD 1 emptyPayload).messages =
        ((ollamaGenerateContent ts req bk).sent.getD 0 emptyPayload).messages) ∧
    (∀ e, bk 0 (ollamaFirstPayload ts req) = .error e →
      (isToolsNotSupportedError e && ts) = false →
      (ollamaGenerateContent ts req bk).sent.length = 1 ∧
      (ollamaGenerateContent ts req bk).result =
        .error ("Ollama generateContent failed: " ++ e) ∧
      (ollamaGenerateContent ts req bk).tsAfter = ts) := by
  unfold ollamaGenerateContent
  cases h0 : bk 0 (ollamaFirstPayload ts req) with
  | ok r =>
    refine ⟨by simp, by simp, ?_⟩
    intro e he _hb
    simp at he
  | error e0 =>
    dsimp only
    by_cases hb : (isToolsNotSupportedError e0 && ts) = true
    · rw [if_pos hb]
      have hts : ts = true := by
        have hh := hb
        simp only [Bool.and_eq_true] at hh
        exact hh.2
      cases h1 : bk 1 (ollamaRetryPayload ts req) with
      | ok r =>
        refine ⟨by simp, fun _ => ⟨hts, rfl, rfl, rfl⟩, ?_⟩
        intro e he hbf
        injection he with hee
        subst hee
        rw [hbf] at hb
        simp at hb
      | error e2 =>
        refine ⟨by simp, fun _ => ⟨hts, rfl, rfl, rfl⟩, ?_⟩
        intro e he hbf
        injection he with hee
        subst hee
        rw [hbf] at hb
        simp at hb
    · rw [if_neg hb]
      refine ⟨by simp, by simp, ?_⟩
      intro e he _hbf
      injection he with hee
      subst hee
      exact ⟨rfl, rfl, rfl⟩

theorem stream_retry_shape (ts : Bool) (req : GenParams)
    (bks : Nat → ChatPayload → Except String (List OllamaChunk)) :
    (ollamaStreamSetup ts req bks).sent.length ≤ 2 ∧
    ((ollamaStreamSetup ts req bks).sent.length = 2 →
      ts = true ∧ (ollamaStreamSetup ts req bks).tsAfter = false ∧
      ((ollamaStreamSetup ts req bks).sent.getD 1 emptyPayload).tools = none ∧
      toolFreeMessages ((ollamaStreamSetup ts req bks).sent.getD 1 emptyPayload).messages = true) ∧
    (∀ e, bks 0 (ollamaFirstPayload ts req) = .error e →
      (isToolsNotSupportedError e && ts) = false →
      (ollamaStreamSetup ts req bks).sent.length = 1 ∧
      (ollamaStreamSetup ts req bks).stream =
        .error ("Ollama generateContentStream failed: " ++ e) ∧
      (ollamaStreamSetup ts req bks).tsAfter = ts) := by
  unfold ollamaStreamSetup
  cases h0 : bks 0 (ollamaFirstPayload ts req) with
  | ok s =>
    refine ⟨by simp, by simp, ?_⟩
    intro e he _hb
    simp at he
  | error e0 =>
    dsimp only
    by_cases hb : (isToolsNotSupportedError e0 && ts) = true
    · rw [if_pos hb]
      have hts : ts = true := by
        have hh := hb
        simp only [Bool.and_eq_true] at hh
        exact hh.2
      cases h1 : bks 1 (ollamaStreamRetryPayload req) with
      | ok s =>
        refine ⟨by simp, fun _ => ⟨hts, rfl, rfl, mapFalse_toolFree req⟩, ?_⟩
        intro e he hbf
        injection he with hee
        subst hee
        rw [hbf] at hb
        simp at hb
      | error e2 =>
        refine ⟨by simp, fun _ => ⟨hts, rfl, rfl, mapFalse_toolFree req⟩, ?_⟩
        intro e he hbf
        injection he with hee
        subst hee
        rw [hbf] at hb
        simp at hb
    · rw [if_neg hb]
      refine ⟨by simp, by simp, ?_⟩
      intro e he _hbf
      injection he with hee
      subst hee
      exact ⟨rfl, rfl, rfl⟩

theorem ite_some_none_ne {α : Type} (b : Prop) [Decidable b] (x : α) :
    (if b then some x else none) ≠ none ↔ b := by
  split <;> simp_all

theorem ollama_tools_iff (ts : Bool) (req : GenParams) :
    (mapGeminiParamsToOllama ts req).tools ≠ none ↔ ts = true ∧ hasFunctionDecl req = true := by
  unfold mapGeminiParamsToOllama finalTools ollamaToolsVar hasFunctionDecl
  cases hm : req.config.bind (fun c => c.tools) with
  | none => simp
  | some l =>
    dsimp only
    by_cases hcond : (ts && decide (l.length > 0)) = true
    · rw [if_pos hcond]
      simp only [Bool.and_eq_true, decide_eq_true_eq] at hcond
      obtain ⟨hts, _hl⟩ := hcond
      subst hts
      by_cases hc : 0 < (l.foldr (fun t acc => (t.functionDeclarations.getD []).map fdToOTool ++ acc) []).length
      · have hany := (collect_length_pos fdToOTool l).mp hc
        simp [hc, hany]
      · have hany : ¬ l.any (fun t => !(t.functionDeclarations.getD []).isEmpty) = true := by
          intro ha
          exact hc ((collect_length_pos fdToOTool l).mpr ha)
        simp only [gt_iff_lt, hc, if_false]
        simp [hany]
    · rw [if_neg hcond]
      simp only [ne_eq, not_true_eq_false]
      constructor
      · intro hfalse
        exact hfalse.elim
      · rintro ⟨hts, hany⟩
        subst hts
        exfalso
        apply hcond
        simp only [Bool.true_and, decide_eq_true_eq]
        exact any_length_pos l _ hany

theorem anthropic_tools_iff (req : GenParams) :
    (mapGeminiParamsToAnthropic req).tools ≠ none ↔ hasFunctionDecl req = true := by
  unfold mapGeminiParamsToAnthropic finalATools anthropicToolsVar hasFunctionDecl
  cases hm : req.config.bind (fun c => c.tools) with
  | none => simp
  | some l =>
    dsimp only
    by_cases hl : 0 < l.length
    · simp only [gt_iff_lt, hl, if_true]
      by_cases hc : 0 < (l.foldr (fun t acc => (t.functionDeclarations.getD []).map fdToATool ++ acc) []).length
      · have hany := (collect_length_pos fdToATool l).mp hc
        simp [hc, hany]
      · have hany : ¬ l.any (fun t => !(t.functionDeclarations.getD []).isEmpty) = true := by
          intro ha
          exact hc ((collect_length_pos fdToATool l).mpr ha)
        simp only [hc, if_false]
        simp [hany]
    · simp only [gt_iff_lt, hl, if_false]
      have hany : ¬ l.any (fun t => !(t.functionDeclarations.getD []).isEmpty) = true := by
        intro ha
        exact hl (any_length_pos l _ ha)
      simp [hany]

theorem foldl_estimator_eq (l : List GContent) (s : String) :
    l.foldl (fun acc (c : GContent) => acc ++ String.intercalate " " (c.parts.map countPartStr)) s =
      s ++ l.foldr (fun c acc => estimatorMessageText c ++ acc) "" := by
  induction l generalizing s with
  | nil => simp [List.foldl, List.foldr]
  | cons c cs ih =>
    simp only [List.foldl, List.foldr]
    rw [ih, String.append_assoc]
    rfl

theorem count_tokens_chars (contents : Option ContentsU) :
    ollamaCountTokens contents = ((estimatorText contents).length + 3) / 4 ∧
    anthropicCountTokens contents = ollamaCountTokens contents := by
  refine ⟨?_, rfl⟩
  cases contents with
  | none => rfl
  | some cu =>
    unfold ollamaCountTokens estimatorText
    dsimp only
    rw [foldl_estimator_eq]
    simp

theorem storeGet_storeDelete (s : CredStore) (k : String) :
    storeGet (storeDelete s k) k = none := by
  induction s with
  | nil => rfl
  | cons e rest ih =>
    show storeGet (List.filter (fun x => x.1 != k) (e :: rest)) k = none
    rw [List.filter_cons]
    by_cases he : (e.1 != k) = true
    · rw [if_pos he]
      have hek : (e.1 == k) = false := by
        simpa [bne] using he
      show (List.find? (fun x => x.1 == k) (e :: List.filter (fun x => x.1 != k) rest)).map
          (fun f => f.2) = none
      rw [List.find?_cons_of_neg _ (by simp [hek])]
      exact ih
    · rw [if_neg he]
      exact ih

/-! ## Claim theorems -/

/-- C1 (counterexample to the claim as stated): with tool support
Enabled, a request holding one function-response message, and a backend
failing the first call with a tools-unsupported error, `generateContent`
sends two calls whose payloads BOTH contain the translated tool-result
message (role `tool`): the retry is not a tool-free retranslation, so
the claimed `zero tool-result messages` on the retry payload is false. -/
theorem ollama_retry_claim_counterexample :
    (ollamaGenerateContent true c1req c1bk).sent.map (fun p => p.messages.map (fun m => m.role)) =
      [["tool"], ["tool"]] := rfl

/-- C1 (amended): on both generate paths at most one retry happens; a
retry happens only from the Enabled state, disables tool support, and
its payload omits the tool-declaration field; in `generateContentStream`
the retry payload is additionally the Disabled-state retranslation, so
it is free of tool-result messages and tool calls, while in
`generateContent` the retry reuses the already-translated messages;
a failure that is not a tools-unsupported failure in the Enabled state
is wrapped and propagated after a single call. -/
theorem ollama_retry_amended :
    ∀ (ts : Bool) (req : GenParams)
      (bk : Nat → ChatPayload → Except String OllamaChatResponse)
      (bks : Nat → ChatPayload → Except String (List OllamaChunk)),
      ((ollamaGenerateContent ts req bk).sent.length ≤ 2 ∧
        (ollamaStreamSetup ts req bks).sent.length ≤ 2) ∧
      ((ollamaGenerateContent ts req bk).sent.length = 2 →
        ts = true ∧ (ollamaGenerateContent ts req bk).tsAfter = false ∧
        ((ollamaGenerateContent ts req bk).sent.getD 1 emptyPayload).tools = none ∧
        ((ollamaGenerateContent ts req bk).sent.getD 1 emptyPayload).messages =
          ((ollamaGenerateContent ts req bk).sent.getD 0 emptyPayload).messages) ∧
      ((ollamaStreamSetup ts req bks).sent.length = 2 →
        ts = true ∧ (ollamaStreamSetup ts req bks).tsAfter = false ∧
        ((ollamaStreamSetup ts req bks).sent.getD 1 emptyPayload).tools = none ∧
        toolFreeMessages ((ollamaStreamSetup ts req bks).sent.getD 1 emptyPayload).messages = true) ∧
      (∀ e, bk 0 (ollamaFirstPayload ts req) = .error e →
        (isToolsNotSupportedError e && ts) = false →
        (ollamaGenerateContent ts req bk).sent.length = 1 ∧
        (ollamaGenerateContent ts req bk).result =
          .error ("Ollama generateContent failed: " ++ e) ∧
        (ollamaGenerateContent ts req bk).tsAfter = ts) ∧
      (∀ e, bks 0 (ollamaFirstPayload ts req) = .error e →
        (isToolsNotSupportedError e && ts) = false →
        (ollamaStreamSetup ts req bks).sent.length = 1 ∧
        (ollamaStreamSetup ts req bks).stream =
          .error ("Ollama generateContentStream failed: " ++ e) ∧
        (ollamaStreamSetup ts req bks).tsAfter = ts) :=
  fun ts req bk bks =>
    ⟨⟨(gen_retry_shape ts req bk).1, (stream_retry_shape ts req bks).1⟩,
     (gen_retry_shape ts req bk).2.1,
     (stream_retry_shape ts req bks).2.1,
     (gen_retry_shape ts req bk).2.2,
     (stream_retry_shape ts req bks).2.2⟩

/-- Witness for `ollama_retry_amended` at a concrete tools-unsupported
failure followed by a successful retry. -/
theorem ollama_retry_amended_witness :
    (true = true ∧ (ollamaGenerateContent true c1req c1bk).tsAfter = false ∧
      ((ollamaGenerateContent true c1req c1bk).sent.getD 1 emptyPayload).tools = none ∧
      ((ollamaGenerateContent true c1req c1bk).sent.getD 1 emptyPayload).messages =
        ((ollamaGenerateContent true c1req c1bk).sent.getD 0 emptyPayload).messages) ∧
    (true = true ∧ (ollamaStreamSetup true c1req c1bks).tsAfter = false ∧
      ((ollamaStreamSetup true c1req c1bks).sent.getD 1 emptyPayload).tools = none ∧
      toolFreeMessages ((ollamaStreamSetup true c1req c1bks).sent.getD 1 emptyPayload).messages = true) ∧
    ((ollamaGenerateContent true c1req (fun _ _ => .error "boom")).sent.length = 1 ∧
      (ollamaGenerateContent true c1req (fun _ _ => .error "boom")).result =
        .error ("Ollama generateContent failed: " ++ "boom") ∧
      (ollamaGenerateContent true c1req (fun _ _ => .error "boom")).tsAfter = true) ∧
    ((ollamaStreamSetup true c1req (fun _ _ => .error "boom")).sent.length = 1 ∧
      (ollamaStreamSetup true c1req (fun _ _ => .error "boom")).stream =
        .error ("Ollama generateContentStream failed: " ++ "boom") ∧
      (ollamaStreamSetup true c1req (fun _ _ => .error "boom")).tsAfter = true) :=
  ⟨(ollama_retry_amended true c1req c1bk c1bks).2.1 (by rfl),
   (ollama_retry_amended true c1req c1bk c1bks).2.2.1 (by rfl),
   (ollama_retry_amended true c1req (fun _ _ => .error "boom") c1bks).2.2.2.1 "boom" rfl (by rfl),
   (ollama_retry_amended true c1req c1bk (fun _ _ => .error "boom")).2.2.2.2 "boom" rfl (by rfl)⟩

/-- C2 (counterexample to the claim as stated): feeding the chunks
`"\x7b"`, `"\"name\":\"foo\","`, `"\"arguments\":\x7b\x7d\x7d"`, then
end-of-stream yields THREE text parts and no functionCall part, because
each fragment is flushed before the accumulator ever satisfies the
potentially-JSON test (the first fragment lacks `"name"`, the later ones
do not start with a brace after the flush-and-reset). -/
theorem stream_json_claim_counterexample :
    (ollamaStreamChunks c2chunksSpec).map (fun ch => ch.parts) =
      [[{ text := some "\x7b" }],
       [{ text := some "\"name\":\"foo\"," }],
       [{ text := some "\"arguments\":\x7b\x7d\x7d" }],
       []] := rfl

/-- C2 (amended): when the FIRST fragment already makes the trimmed
accumulator start with a brace and contain `"name"` (chunks
`"\x7b\"name\":\"foo\","` then `"\"arguments\":\x7b\x7d\x7d"`, then
end-of-stream), the aggregator withholds all text and yields exactly one
chunk: zero text parts, one functionCall part named `foo` with empty
arguments, carrying the terminal marker. -/
theorem stream_json_recovery_amended :
    (ollamaStreamChunks c2chunksMerged).map (fun ch => (ch.parts, ch.finishReason)) =
      [([{ functionCall := some (Json.obj [("name", Json.str "foo"), ("args", Json.obj [])]) }],
        some "STOP")] := rfl

/-- C3: the tool-support flag of one adapter instance never returns to
Enabled: from the Disabled state every operation sequence leaves it
Disabled, and running a sequence decomposes through the state, so once
any prefix disables the flag the whole run stays disabled. -/
theorem tool_support_one_way :
    (∀ ops : List AdapterOp, runTs false ops = false) ∧
    (∀ (ts : Bool) (l1 l2 : List AdapterOp), runTs ts (l1 ++ l2) = runTs (runTs ts l1) l2) :=
  ⟨runTs_from_false, runTs_split⟩

/-- C4: the translated Ollama payload carries tool declarations iff the
tool-support state is Enabled and the request holds at least one
function declaration; the Anthropic translator (which has no
tool-support gate and never leaves the Enabled state) carries them iff
the request holds at least one declaration. -/
theorem tools_included_iff :
    ∀ (ts : Bool) (req : GenParams),
      ((mapGeminiParamsToOllama ts req).tools ≠ none ↔ ts = true ∧ hasFunctionDecl req = true) ∧
      ((mapGeminiParamsToAnthropic req).tools ≠ none ↔ hasFunctionDecl req = true) :=
  fun ts req => ⟨ollama_tools_iff ts req, anthropic_tools_iff req⟩

/-- C5 (counterexample to the claim as stated): a fully consumed
Anthropic stream (three events plus a final message with one text
block) yields four unified chunks and NONE of them - in particular not
the last - carries a finish marker: the Anthropic adapter never sets
one. -/
theorem terminal_marker_claim_counterexample :
    (anthropicAggregate c5events c5final).map (fun ch => ch.finishReason) =
      [none, none, none, none] := rfl

/-- C5 (amended): on the Ollama adapter every fully consumed stream
whose final backend chunk signals completion ends with a unified chunk
carrying finishReason STOP, even when that chunk has no parts; the
Anthropic adapter yields all its chunks without any finish marker. -/
theorem terminal_marker_amended :
    (∀ (chs : List OllamaChunk) (c : OllamaChunk), chs.getLast? = some c → c.done = true →
      ∃ u, (ollamaStreamChunks chs).getLast? = some u ∧ u.finishReason = some "STOP") ∧
    (∀ (evs : List AStreamEvent) (fin : AFinalMessage) (ch : AChunk),
      ch ∈ anthropicAggregate evs fin → ch.finishReason = none) :=
  ⟨fun chs c h1 h2 => ollamaAggregate_last chs {} c h1 h2,
   fun evs fin ch h => anthropicAggregate_finish_none evs fin ch h⟩

/-- Witness for `terminal_marker_amended` on a one-chunk done-only
stream and a one-event Anthropic stream. -/
theorem terminal_marker_amended_witness :
    (∃ u, (ollamaStreamChunks [{ done := true }]).getLast? = some u ∧
      u.finishReason = some "STOP") ∧
    c5wChunk.finishReason = none :=
  ⟨terminal_marker_amended.1 [{ done := true }] { done := true } rfl rfl,
   terminal_marker_amended.2 [AStreamEvent.otherEvent] { content := [], usage := none } c5wChunk
     (List.mem_singleton.mpr rfl)⟩

/-- C6 (counterexample to the claim as stated): on two text-only
messages `ab` and `cd` the code concatenates the per-message texts with
NO separator (`abcd`, 4 characters, 1 token), while the claimed
all-parts space-joined text `ab cd` has 5 characters and would give 2
tokens. -/
theorem count_tokens_claim_counterexample :
    countTokensClaimed c6reqCross = 2 ∧
    ollamaCountTokens c6reqCross = 1 ∧
    anthropicCountTokens c6reqCross = 1 :=
  ⟨rfl, rfl, rfl⟩

/-- C6 (amended): countTokens returns `ceil(n / 4)` where `n` is the
length of the concatenation over messages (no separator between
messages) of that message's part contributions joined by single spaces,
each part contributing its text when non-empty and otherwise the
stringified functionCall-or-empty-object; both adapters compute the
same estimate; 8 characters of text give 2 and an empty request gives
0. -/
theorem count_tokens_amended :
    (∀ contents : Option ContentsU,
      ollamaCountTokens contents = ((estimatorText contents).length + 3) / 4 ∧
      anthropicCountTokens contents = ollamaCountTokens contents) ∧
    ollamaCountTokens (some (.many [{ parts := [{ text := some "abcdefgh" }] }])) = 2 ∧
    ollamaCountTokens none = 0 :=
  ⟨count_tokens_chars, rfl, rfl⟩

/-- C7: `embedContent` fails whenever the backend lacks embedding
capability (the Anthropic adapter always throws its
embeddings-unsupported error) or the extracted input text is empty (the
Ollama adapter throws before calling the backend). -/
theorem embed_unsupported_or_empty :
    ∀ (contents : Option EmbedContents) (bk : String → Except String (List Rat)),
      (extractEmbedInput contents = "" →
        ollamaEmbedContent contents bk = .error "No text content for embeddings") ∧
      anthropicEmbedContent contents =
        .error "Embeddings API is not supported via Anthropic module yet." := by
  intro contents bk
  refine ⟨?_, rfl⟩
  intro h
  simp [ollamaEmbedContent, h]

/-- Witness for `embed_unsupported_or_empty` on a request with no
contents. -/
theorem embed_unsupported_or_empty_witness :
    ollamaEmbedContent none (fun _ => .ok []) = .error "No text content for embeddings" :=
  (embed_unsupported_or_empty none (fun _ => .ok [])).1 rfl

/-- C8: credential-store failures never propagate: a failing read makes
`loadAnthropicApiKey` answer absent instead of throwing, a failing
delete is swallowed by `clearAnthropicApiKey`, and after a clear whose
delete succeeds a subsequent load answers absent, not a stale value. -/
theorem credential_failures_not_propagated :
    (∀ msg : String, loadAnthropicApiKey (.failure msg) = none) ∧
    (∀ (s : CredStore) (deleteFails : Bool), (clearAnthropicApiKey s deleteFails).2 = false) ∧
    (∀ s : CredStore, loadAnthropicApiKeyFrom (clearAnthropicApiKey s false).1 = none) :=
  ⟨fun _ => rfl,
   fun s df => by cases df <;> rfl,
   fun s => by
     show loadAnthropicApiKey
       (.ok (storeGet (storeDelete s ANTHROPIC_API_KEY_ENTRY) ANTHROPIC_API_KEY_ENTRY)) = none
     rw [storeGet_storeDelete]
     rfl⟩

/-- C9: the Anthropic translation fixes `max_tokens` at 8192 for every
request, and both `generateContent` and `generateContentStream` send
exactly that value. -/
theorem anthropic_max_tokens_fixed :
    ∀ req : GenParams,
      (mapGeminiParamsToAnthropic req).max_tokens = 8192 ∧
      (anthropicGenerateContentRequest req).max_tokens = 8192 ∧
      (anthropicStreamRequest req).max_tokens = 8192 :=
  fun _ => ⟨rfl, rfl, rfl⟩

/-- C10: the two transcribed copies of `mapGeminiParamsToOllama` return
the same payload - messages, tools and options - for every request and
every value of the tools-supported flag. -/
theorem ollama_mapper_copies_agree :
    ∀ (ts : Bool) (req : GenParams),
      mapGeminiParamsToOllama ts req = mapGeminiParamsToOllamaV2 ts req :=
  fun _ _ => rfl

end Spec2Proof
